import Mathlib

/-!
Verification of the bilinear feature-dynamics predictor of
`predictor/predictor.py` (classes `Predictor`, `FeaturePredictor`,
`BilinearFeaturePredictor`).

Numpy arrays are embedded as a shape (a list of naturals) together with the
row-major data buffer (a list of rationals standing for the float entries;
every property proved here is shape-structural or an exact algebraic identity,
so the choice of `ℚ` over machine floats is immaterial).  Python exceptions
are embedded as an error type returned through `Except`.

The module `bilinear` (class `BilinearFunction` with `fit`, `eval`, `jac_u`
and parameters `Q`, `R`, `S`, `b`) and the module `utils` (with
`ConfigObject` and `Transformer`) belong to the repository but are not part
of the sources provided; the definitions that depend on them are modelled
from the specification and are marked `Modelled from the spec:` in their
doc comments.
-/

namespace VD

/-- Error raised by `Predictor.batch_size` (predictor.py lines 59-60 and
65-66): the Python `ValueError` message lists the expected per-sample shape,
the expected batched shape (whose leading entry is `None` on the first
argument and the already-fixed batch size afterwards), and the actual shape.
The leading entry of `allowedBatched` is an `Option Nat` to cover both. -/
structure ShapeError where
  allowedSingle : List Nat
  allowedBatched : List (Option Nat)
  actual : List Nat
deriving DecidableEq

/-- Python exceptions that the embedded code can raise. -/
inductive PyError where
  /-- `ValueError` raised by `Predictor.batch_size`. -/
  | shapeMismatch (e : ShapeError)
  /-- `ValueError` raised by `numpy.reshape` when the `-1` dimension cannot
  be inferred (known product of the other dimensions is zero). -/
  | reshapeError
  /-- `IndexError` from indexing an empty shape tuple. -/
  | indexError
  /-- `TypeError` from calling a function with arguments that do not match
  its signature. -/
  | typeError
  /-- `NotImplementedError` raised by the abstract `Predictor` methods. -/
  | notImplementedError
  /-- `AssertionError` from a failed `assert` statement. -/
  | assertionError
deriving DecidableEq

/-- A numpy array: its shape and its row-major data buffer.  A genuine
ndarray satisfies `data.length = shape.prod`; theorems assume this where the
data buffer matters. -/
structure Arr where
  shape : List Nat
  data : List ℚ
deriving DecidableEq

/-- Loop body of `Predictor.batch_size` (predictor.py lines 51-67).  The
running value `bs` starts at `-1` (meaning "not yet fixed").  Each pair in
the list is the shape of one input array together with its expected
per-sample shape (the zip on line 52; `batch_size` only ever reads the
`.shape` attribute of an input, so inputs are represented by their shapes).
While `bs = -1`: an input whose shape equals the expected shape sets `bs`
to `0`; one whose shape minus its first entry equals the expected shape sets
`bs` to that first entry; anything else raises `ValueError` naming the
per-sample shape, `(None, *shape)` and the actual shape (lines 53-60).
Once `bs ≠ -1`: an input whose shape equals the expected shape or
`(bs, *shape)` is accepted, anything else raises `ValueError` naming the
per-sample shape, `(bs, *shape)` and the actual shape (lines 61-66). -/
def batchSizeGo : Int → List (List Nat × List Nat) → Except ShapeError Int
  | bs, [] => Except.ok bs
  | bs, (ish, sh) :: rest =>
    if bs = -1 then
      if ish = sh then
        batchSizeGo 0 rest
      else if ish.drop 1 = sh then
        batchSizeGo ((ish.headD 0 : Nat) : Int) rest
      else
        Except.error ⟨sh, none :: sh.map some, ish⟩
    else
      if ish = sh ∨ ish = bs.toNat :: sh then
        batchSizeGo bs rest
      else
        Except.error ⟨sh, some bs.toNat :: sh.map some, ish⟩

/-- `Predictor.batch_size` (predictor.py lines 46-67): infer the common batch
size of the given inputs (represented by their shapes) against the expected
per-sample shapes, returning `0` for unbatched inputs, the common leading
dimension for batched inputs, and `-1` when there are no inputs. -/
def batch_size (input_shapes inputs : List (List Nat)) : Except ShapeError Int :=
  batchSizeGo (-1) (inputs.zip input_shapes)

/-- State of a `BilinearFeaturePredictor` (predictor.py lines 142-152):
the constructor arguments `x_shape` and `u_shape` and the parameter tensors
`Q : (Dy, Dy, Du)`, `R : (Dy, Du)`, `S : (Dy, Dy)`, `b : (Dy,)` owned by the
`bilinear.BilinearFunction` base class (spec §3), stored as nested lists. -/
structure BilinearFeaturePredictor where
  x_shape : List Nat
  u_shape : List Nat
  Q : List (List (List ℚ))
  R : List (List ℚ)
  S : List (List ℚ)
  b : List ℚ
deriving DecidableEq

/-- Feature dimension `y_dim = np.prod(self.x_shape)` (predictor.py line 149). -/
def yDim (P : BilinearFeaturePredictor) : Nat :=
  P.x_shape.prod

/-- Control dimension `u_dim = self.u_shape[0]` (predictor.py line 151). -/
def uDim (P : BilinearFeaturePredictor) : Nat :=
  P.u_shape.headD 0

/-- Modelled from the spec: the constructor attribute plumbing
(`utils.ConfigObject`, `utils.Transformer`, `FeaturePredictor.__init__`) is
not among the provided sources, so per spec §6 construction simply records
the immutable `x_shape` and `u_shape`, and per spec §3 the parameters are
created zero-initialised with shapes `(Dy, Dy, Du)`, `(Dy, Du)`, `(Dy, Dy)`,
`(Dy,)`.  The dimensionality check is from the source (predictor.py line
150): `assert len(self.u_shape) == 1 or (len(self.u_shape) == 2 and
self.u_shape[1] == 1)` raises `AssertionError` at construction time, and
`u_dim = self.u_shape[0]`, `y_dim = np.prod(self.x_shape)` (lines 149-151). -/
def BilinearFeaturePredictor.init (x_shape u_shape : List Nat) :
    Except PyError BilinearFeaturePredictor :=
  if u_shape.length = 1 ∨ (u_shape.length = 2 ∧ u_shape.getD 1 0 = 1) then
    Except.ok
      { x_shape := x_shape
        u_shape := u_shape
        Q := List.replicate x_shape.prod
          (List.replicate x_shape.prod (List.replicate (u_shape.headD 0) 0))
        R := List.replicate x_shape.prod (List.replicate (u_shape.headD 0) 0)
        S := List.replicate x_shape.prod (List.replicate x_shape.prod 0)
        b := List.replicate x_shape.prod 0 }
  else
    Except.error PyError.assertionError

/-- `BilinearFeaturePredictor.flatten` (predictor.py lines 167-173):
`is_batched = X.shape[1:] == self.x_shape`; a batched array is reshaped by
`X.reshape((X.shape[0], -1))` and anything else is flattened whole by
`X.flatten()`.  Reshaping with an inferred `-1` dimension keeps the data
buffer and computes the missing dimension as the product of the remaining
axes; numpy raises `ValueError` when the leading dimension is `0` (the `-1`
cannot then be inferred) and indexing `X.shape[0]` of a 0-d array raises
`IndexError`. -/
def flatten (x_shape : List Nat) (X : Arr) : Except PyError Arr :=
  if X.shape.drop 1 = x_shape then
    match X.shape with
    | [] => Except.error PyError.indexError
    | n :: rest =>
      if n = 0 then
        Except.error PyError.reshapeError
      else
        Except.ok ⟨[n, rest.prod], X.data⟩
  else
    Except.ok ⟨[X.data.length], X.data⟩

/-- Sum of `f` over indices `0, ..., n-1`. -/
def sumIdx (n : Nat) (f : Nat → ℚ) : ℚ :=
  ((List.range n).map f).sum

/-- Entry `Q[d, e, k]` of the bilinear tensor (0 outside bounds). -/
def qGet (P : BilinearFeaturePredictor) (d e k : Nat) : ℚ :=
  ((P.Q.getD d []).getD e []).getD k 0

/-- Entry `R[d, k]` (0 outside bounds). -/
def rGet (P : BilinearFeaturePredictor) (d k : Nat) : ℚ :=
  (P.R.getD d []).getD k 0

/-- Entry `S[d, e]` (0 outside bounds). -/
def sGet (P : BilinearFeaturePredictor) (d e : Nat) : ℚ :=
  (P.S.getD d []).getD e 0

/-- Modelled from the spec: one-sample forward evaluation of
`bilinear.BilinearFunction.eval` (module not among the provided sources),
following the formula of spec §4.2:
`ydot[d] = Σ_e Σ_k Q[d,e,k] y[e] u[k] + Σ_e S[d,e] y[e] + Σ_k R[d,k] u[k] + b[d]`. -/
def evalSingle (P : BilinearFeaturePredictor) (y u : List ℚ) : List ℚ :=
  (List.range (yDim P)).map (fun d =>
    sumIdx (yDim P) (fun e => sumIdx (uDim P) (fun k => qGet P d e k * y.getD e 0 * u.getD k 0))
      + sumIdx (yDim P) (fun e => sGet P d e * y.getD e 0)
      + sumIdx (uDim P) (fun k => rGet P d k * u.getD k 0)
      + P.b.getD d 0)

/-- Row `i` of a flat row-major buffer whose rows have length `d`. -/
def rowSlice (l : List ℚ) (i d : Nat) : List ℚ :=
  (l.drop (i * d)).take d

/-- Modelled from the spec: batched forward evaluation, row `i` of the
result being `evalSingle` applied to rows `i` of the inputs (spec §4.2:
forward evaluation "for one sample or a batch"). -/
def evalBatched (P : BilinearFeaturePredictor) (n : Nat) (ydata udata : List ℚ) : List ℚ :=
  (List.range n).flatMap (fun i =>
    evalSingle P (rowSlice ydata i (yDim P)) (rowSlice udata i (uDim P)))

/-- Modelled from the spec: `bilinear.BilinearFunction.eval` (module not
among the provided sources).  Spec §4.2: forward evaluation of the bilinear
formula for one sample or a batch, with batch handling per spec §4.1
(`Predictor.batch_size` over the flat per-sample shapes `(Dy,)` and
`(Du,)`); returns `(Dy,)` for a single sample and `(N, Dy)` for a batch. -/
def eval (P : BilinearFeaturePredictor) (Y U : Arr) : Except PyError Arr :=
  match batch_size [[yDim P], [uDim P]] [Y.shape, U.shape] with
  | Except.error e => Except.error (PyError.shapeMismatch e)
  | Except.ok bs =>
    if bs ≤ 0 then
      Except.ok ⟨[yDim P], evalSingle P Y.data U.data⟩
    else
      Except.ok ⟨[bs.toNat, yDim P], evalBatched P bs.toNat Y.data U.data⟩

/-- Modelled from the spec: one-sample control Jacobian of
`bilinear.BilinearFunction.jac_u` (module not among the provided sources),
following spec §4.2: for each output row `d` the Jacobian row is
`y^T Q[d,:,:] + R[d,:]`, i.e. `jac[d,k] = Σ_e y[e] Q[d,e,k] + R[d,k]`;
the `(Dy, Du)` matrix is stored row-major. -/
def jacSingle (P : BilinearFeaturePredictor) (y : List ℚ) : List ℚ :=
  (List.range (yDim P)).flatMap (fun d =>
    (List.range (uDim P)).map (fun k =>
      sumIdx (yDim P) (fun e => y.getD e 0 * qGet P d e k) + rGet P d k))

/-- Modelled from the spec: `bilinear.BilinearFunction.jac_u` (module not
among the provided sources).  Spec §4.2: a `(Dy, Du)` matrix for a single
sample, `(N, Dy, Du)` for a batch, with batch handling per spec §4.1
applied to its single argument. -/
def jac_u (P : BilinearFeaturePredictor) (Y : Arr) : Except PyError Arr :=
  match batch_size [[yDim P]] [Y.shape] with
  | Except.error e => Except.error (PyError.shapeMismatch e)
  | Except.ok bs =>
    if bs ≤ 0 then
      Except.ok ⟨[yDim P, uDim P], jacSingle P Y.data⟩
    else
      Except.ok ⟨[bs.toNat, yDim P, uDim P],
        (List.range bs.toNat).flatMap (fun i => jacSingle P (rowSlice Y.data i (yDim P)))⟩

/-- `BilinearFeaturePredictor.predict` (predictor.py lines 158-160):
`Y = self.flatten(X); return self.eval(Y, U)`.  Note that it performs no
shape validation of its own: whatever `flatten` produces is handed to
`eval`. -/
def predict (P : BilinearFeaturePredictor) (X U : Arr) : Except PyError Arr :=
  (flatten P.x_shape X).bind (fun Y => eval P Y U)

/-- `BilinearFeaturePredictor.jacobian_control` (predictor.py lines
162-165): `Y = self.flatten(X); return self.jac_u(Y)` — the argument `U` is
never read ("in the bilinear model, the jacobian doesn't depend on u"). -/
def jacobian_control (P : BilinearFeaturePredictor) (X U : Arr) : Except PyError Arr :=
  (flatten P.x_shape X).bind (fun Y => jac_u P Y)

/-- `FeaturePredictor.feature` (predictor.py lines 94-95) executes
`return self.predict(self.feature_name, X, preprocessed=preprocessed)`.
On a `BilinearFeaturePredictor` the dynamically dispatched `self.predict`
is the override of lines 158-160 with signature `predict(self, X, U)`,
which accepts no `preprocessed` keyword argument, so Python raises
`TypeError` at the call site before any body runs (the positional
arguments would moreover bind the string `feature_name` to `X` and the
array `X` to `U`). -/
def feature (P : BilinearFeaturePredictor) (X : Arr) : Except PyError Arr :=
  Except.error PyError.typeError

/-- `FeaturePredictor.next_feature` (predictor.py lines 97-98) executes
`return self.predict(self.next_feature_name, X, U, preprocessed=preprocessed)`.
On a `BilinearFeaturePredictor` the dispatched `predict(self, X, U)`
(lines 158-160) takes two positional arguments and no `preprocessed`
keyword, but three positional arguments and the keyword are supplied, so
Python raises `TypeError` at the call site before any body runs. -/
def next_feature (P : BilinearFeaturePredictor) (X U : Arr) : Except PyError Arr :=
  Except.error PyError.typeError

/-- `FeaturePredictor.feature_jacobian` (predictor.py lines 100-103) first
executes `jac = self.jacobian(self.next_feature_name, self.control_name, X,
U, preprocessed=preprocessed)`.  `BilinearFeaturePredictor` does not
override `jacobian` (it defines `jacobian_control` instead), so the call
dispatches to `Predictor.jacobian` (predictor.py lines 29-30), whose body is
`raise NotImplementedError`; the subsequent `next_feature` call is never
reached. -/
def feature_jacobian (P : BilinearFeaturePredictor) (X U : Arr) :
    Except PyError (Arr × Arr) :=
  Except.error PyError.notImplementedError

/-! Helper lemmas shared by the claim theorems. -/

/-- Dropping the first element of a nonempty list never returns the list. -/
lemma drop_one_ne_self {l : List Nat} (h : l ≠ []) : l.drop 1 ≠ l := by
  intro he
  have hlen := congrArg List.length he
  have hpos : 0 < l.length := List.length_pos.mpr h
  simp [List.length_drop] at hlen
  omega

/-- A nonempty batched shape is flattened to an `(N, Dy)` matrix. -/
lemma flatten_batched (x_shape : List Nat) (X : Arr) (N : Nat) (hN : N ≠ 0)
    (hsh : X.shape = N :: x_shape) :
    flatten x_shape X = Except.ok ⟨[N, x_shape.prod], X.data⟩ := by
  simp [flatten, hsh, hN]

/-- An array that is not batched (its shape minus the leading entry differs
from the per-sample shape) is flattened whole. -/
lemma flatten_not_batched (x_shape : List Nat) (X : Arr)
    (h : X.shape.drop 1 ≠ x_shape) :
    flatten x_shape X = Except.ok ⟨[X.data.length], X.data⟩ := by
  rw [List.drop_one] at h
  simp [flatten, h]

/-- The single-sample forward evaluation always produces `Dy` entries. -/
lemma evalSingle_length (P : BilinearFeaturePredictor) (y u : List ℚ) :
    (evalSingle P y u).length = yDim P := by
  simp [evalSingle]

/-- Row extraction from a concatenation of constant-length blocks. -/
lemma rowSlice_flatMap_list {α : Type} (g : α → List ℚ) (L : Nat) :
    ∀ (l : List α) (i : Nat) (hi : i < l.length), (∀ a ∈ l, (g a).length = L) →
      rowSlice (l.flatMap g) i L = g (l.get ⟨i, hi⟩) := by
  intro l
  induction l with
  | nil => intro i hi; exact absurd hi (Nat.not_lt_zero i)
  | cons a l ih =>
    intro i hi hg
    have ha : (g a).length = L := hg a (List.mem_cons_self a l)
    cases i with
    | zero =>
      simp only [List.flatMap_cons, rowSlice, Nat.zero_mul, List.drop_zero]
      rw [← ha, List.take_left]
      simp
    | succ i =>
      have hlen : (i + 1) * L = (g a).length + i * L := by rw [ha]; ring
      simp only [List.flatMap_cons, rowSlice, hlen]
      rw [List.drop_append]
      have hi' : i < l.length := by simpa using hi
      have := ih i hi' (fun b hb => hg b (List.mem_cons_of_mem a hb))
      simpa [rowSlice] using this

/-- Row extraction from a batched computation over `List.range`. -/
lemma rowSlice_flatMap_range (f : Nat → List ℚ) (L n i : Nat) (hi : i < n)
    (hf : ∀ j, (f j).length = L) :
    rowSlice ((List.range n).flatMap f) i L = f i := by
  have h := rowSlice_flatMap_list f L (List.range n) i (by simpa using hi)
      (fun a _ => hf a)
  simpa using h

/-- Unfolding of `predict` once the flatten result is known. -/
lemma predict_eq (P : BilinearFeaturePredictor) (X U Y : Arr)
    (h : flatten P.x_shape X = Except.ok Y) :
    predict P X U = eval P Y U := by
  unfold predict
  rw [h]
  rfl

/-- Unfolding of `eval` when batch inference returns `0` (single sample). -/
lemma eval_of_batch_zero (P : BilinearFeaturePredictor) (Y U : Arr)
    (h : batch_size [[yDim P], [uDim P]] [Y.shape, U.shape] = Except.ok 0) :
    eval P Y U = Except.ok ⟨[yDim P], evalSingle P Y.data U.data⟩ := by
  unfold eval
  rw [h]
  simp

/-- Unfolding of `eval` when batch inference returns a positive batch. -/
lemma eval_of_batch_pos (P : BilinearFeaturePredictor) (Y U : Arr) (N : Nat)
    (hN : N ≠ 0)
    (h : batch_size [[yDim P], [uDim P]] [Y.shape, U.shape] =
      Except.ok ((N : Nat) : Int)) :
    eval P Y U = Except.ok ⟨[N, yDim P], evalBatched P N Y.data U.data⟩ := by
  unfold eval
  rw [h]
  have hpos : ¬ (((N : Nat) : Int) ≤ 0) := by omega
  simp [hpos, hN]

/-! Claim theorems. -/

/-- C1 counterexample: the claim demands a shape-mismatch error for every
first-argument shape other than `s` and `(N,)+s` with `N ≥ 1`, but for the
empty-batch shape `(0,)+s` the code takes the `input_.shape[1:] == shape`
branch and returns a batch size of `0` instead of raising. -/
theorem batch_size_first_arg_cx : batch_size [[2]] [[0, 2]] = Except.ok 0 := rfl

/-- C1 (amended): for the first argument, a shape equal to the expected
per-sample shape `s` yields batch size `0`; a shape `(N,)+s` for any
`N ≥ 0` yields batch size `N` (so the empty batch `(0,)+s` yields `0`, the
same value as a single sample, rather than an error); any other shape
raises a shape-mismatch error naming `s`, `(None,)+s` and the actual
shape. -/
theorem batch_size_first_arg (s ish : List Nat) :
    (ish = s → batch_size [s] [ish] = Except.ok 0) ∧
    (∀ N : Nat, ish = N :: s → batch_size [s] [ish] = Except.ok ((N : Nat) : Int)) ∧
    (ish ≠ s → ish.drop 1 ≠ s →
      batch_size [s] [ish] = Except.error ⟨s, none :: s.map some, ish⟩) := by
  refine ⟨?_, ?_, ?_⟩
  · intro h
    simp [batch_size, batchSizeGo, h]
  · intro N h
    simp [batch_size, batchSizeGo, h, List.cons_ne_self]
  · intro h1 h2
    rw [List.drop_one] at h2
    simp [batch_size, batchSizeGo, h1, h2]

/-- Witness for C1: a first argument of shape `(5, 2)` against per-sample
shape `(2,)` yields batch size `5`. -/
theorem batch_size_first_arg_witness :
    batch_size [[2]] [[5, 2]] = Except.ok ((5 : Nat) : Int) :=
  (batch_size_first_arg [2] [5, 2]).2.1 5 rfl

/-- C2 counterexample: the claim demands an error when, after the batch
size was fixed to `3` by the first argument, a later argument has the bare
per-sample shape `(2,)`; the code instead accepts it (the
`input_.shape == shape` disjunct of line 62) and returns `3`. -/
theorem batch_size_later_arg_cx :
    batch_size [[2], [2]] [[3, 2], [2]] = Except.ok 3 := rfl

/-- C2 (amended): once the batch size has been fixed to a positive `N` by
an earlier argument, a later argument whose shape equals the bare
per-sample shape is accepted rather than rejected; a later argument must
have shape equal to either the per-sample shape or `(N,)+shape` (so a
batched argument's leading dimension must equal the already-fixed `N`),
and any other shape raises a shape-mismatch error naming the per-sample
shape, `(N,)+shape` and the actual shape. -/
theorem batch_size_later_arg (bs : Int) (t s : List Nat)
    (rest : List (List Nat × List Nat)) (hbs : 1 ≤ bs) :
    ((t = s ∨ t = bs.toNat :: s) →
      batchSizeGo bs ((t, s) :: rest) = batchSizeGo bs rest) ∧
    (t ≠ s → t ≠ bs.toNat :: s →
      batchSizeGo bs ((t, s) :: rest) =
        Except.error ⟨s, some bs.toNat :: s.map some, t⟩) := by
  have hne : bs ≠ -1 := by omega
  constructor
  · intro h
    simp [batchSizeGo, hne, h]
  · intro h1 h2
    simp [batchSizeGo, hne, h1, h2]

/-- Witness for C2: with the batch size fixed at `3`, a later argument of
bare per-sample shape `(2,)` is accepted and the batch size stays `3`. -/
theorem batch_size_later_arg_witness :
    batchSizeGo 3 [([2], [2])] = Except.ok 3 :=
  ((batch_size_later_arg 3 [2] [2] [] (by decide)).1 (Or.inl rfl)).trans rfl

/-- C4 counterexample: per-sample shape `(2,)` and an array of shape
`(1, 1, 2)` — its trailing shape equals the per-sample shape with two
leading batch dimensions, so the claim demands the `(N, Dy)` row matrix
`(1, 2)`; the code's `X.shape[1:] == self.x_shape` test fails (it strips
exactly one leading dimension) and the whole array is flattened to the
1-D shape `(2,)`. -/
theorem flatten_cx :
    flatten [2] ⟨[1, 1, 2], [0, 0]⟩ = Except.ok ⟨[2], [0, 0]⟩ ∧
      ([2] : List Nat) ≠ [1, 2] := by
  exact ⟨rfl, by decide⟩

/-- C4 (amended): `flatten` treats `X` as batched exactly when stripping
one leading dimension of `X.shape` leaves the declared per-sample shape;
such an `X` (leading dimension `N ≥ 1`) is reshaped to `(N, Dy)` rows.
Every other `X` — including arrays whose trailing shape equals the
per-sample shape under two or more leading batch dimensions — is flattened
whole into a single 1-D vector. -/
theorem flatten_cases (x_shape : List Nat) (X : Arr) :
    (∀ N : Nat, 1 ≤ N → X.shape = N :: x_shape →
      flatten x_shape X = Except.ok ⟨[N, x_shape.prod], X.data⟩) ∧
    (X.shape.drop 1 ≠ x_shape →
      flatten x_shape X = Except.ok ⟨[X.data.length], X.data⟩) := by
  constructor
  · intro N hN hsh
    exact flatten_batched x_shape X N (by omega) hsh
  · intro h
    exact flatten_not_batched x_shape X h

/-- Witness for C4: a `(3, 2)` array over per-sample shape `(2,)` is
reshaped to `(3, 2)` rows. -/
theorem flatten_cases_witness :
    flatten [2] ⟨[3, 2], [1, 2, 3, 4, 5, 6]⟩ =
      Except.ok ⟨[3, 2], [1, 2, 3, 4, 5, 6]⟩ :=
  (flatten_cases [2] ⟨[3, 2], [1, 2, 3, 4, 5, 6]⟩).1 3 (by decide) rfl

/-- A concrete predictor used to evaluate the embedded code at concrete
inputs: per-sample observation shape `(2,)`, control shape `(1,)`, and
zero-initialised parameters (as produced by construction). -/
def P0 : BilinearFeaturePredictor :=
  { x_shape := [2]
    u_shape := [1]
    Q := List.replicate 2 (List.replicate 2 [0])
    R := List.replicate 2 [0]
    S := List.replicate 2 (List.replicate 2 0)
    b := [0, 0] }

/-- C3: control-independence of the control Jacobian — for every model
parameter state, every input `X` and every pair of controls `u1`, `u2`,
`jacobian_control(X, u1) = jacobian_control(X, u2)`: the source never reads
its `U` argument (predictor.py lines 162-165), so the two runs coincide. -/
theorem jacobian_control_u_independent (P : BilinearFeaturePredictor)
    (X u1 u2 : Arr) :
    jacobian_control P X u1 = jacobian_control P X u2 := rfl

/-- C5 counterexample: per-sample shape `(2,)`, input `X` of shape `(2, 1)`
— neither the per-sample shape nor a valid batch of it — yet `predict`
raises nothing: `flatten` silently coerces `X` to a flat 2-vector, which
`eval` then accepts as a single sample, returning a prediction. -/
theorem predict_no_shape_error_cx :
    predict P0 ⟨[2, 1], [5, 7]⟩ ⟨[1], [3]⟩ = Except.ok ⟨[2], [0, 0]⟩ := by
  show (Except.ok ⟨[2], evalSingle P0 [5, 7] [3]⟩ : Except PyError Arr) =
    Except.ok ⟨[2], [0, 0]⟩
  norm_num [evalSingle, sumIdx, qGet, rGet, sGet, P0, yDim, uDim,
    List.range_succ, List.getD]

/-- C5 (amended): `predict` performs no shape validation of its input `X`:
any `X` whose shape is neither the declared per-sample shape nor a
one-leading-dimension batch of it is silently coerced by `flatten` into a
single flat sample and handed to `eval`; whenever the flattened length
happens to equal `Dy` the call succeeds with a prediction instead of
raising a shape-mismatch error naming the declared shapes. -/
theorem predict_silently_flattens (P : BilinearFeaturePredictor) (X U : Arr)
    (h1 : X.shape ≠ P.x_shape) (h2 : X.shape.drop 1 ≠ P.x_shape)
    (h3 : X.data.length = yDim P) (h4 : U.shape = [uDim P]) :
    predict P X U = Except.ok ⟨[yDim P], evalSingle P X.data U.data⟩ := by
  have hf : flatten P.x_shape X = Except.ok ⟨[yDim P], X.data⟩ := by
    rw [flatten_not_batched P.x_shape X h2, h3]
  rw [predict_eq P X U _ hf]
  apply eval_of_batch_zero
  rw [h4]
  simp [batch_size, batchSizeGo]

/-- Witness for C5: an `X` of shape `(2, 1)` (invalid for per-sample shape
`(2,)`) is silently accepted by `predict`. -/
theorem predict_silently_flattens_witness :
    predict P0 ⟨[2, 1], [2, 3]⟩ ⟨[1], [4]⟩ =
      Except.ok ⟨[yDim P0], evalSingle P0 [2, 3] [4]⟩ :=
  predict_silently_flattens P0 ⟨[2, 1], [2, 3]⟩ ⟨[1], [4]⟩
    (by decide) (by decide) rfl rfl

/-- C6: evaluating the code at the failing input — on a
`BilinearFeaturePredictor`, the inherited `FeaturePredictor.feature`
(predictor.py lines 94-95) raises `TypeError` instead of returning
`flatten(X)`, because it invokes the overridden `predict(self, X, U)` with
the tensor name as a positional argument and a `preprocessed` keyword that
the override does not accept. -/
theorem feature_raises_type_error :
    feature P0 ⟨[2], [5, 7]⟩ = Except.error PyError.typeError := rfl

/-- C7: evaluating the code at the failing input — on a
`BilinearFeaturePredictor`, the inherited `FeaturePredictor.next_feature`
(predictor.py lines 97-98) raises `TypeError` instead of returning
`predict(X, U)`, because it passes three positional arguments and a
`preprocessed` keyword to the overridden two-argument `predict`. -/
theorem next_feature_raises_type_error :
    next_feature P0 ⟨[2], [5, 7]⟩ ⟨[1], [3]⟩ = Except.error PyError.typeError := rfl

/-- C8: evaluating the code at the failing input — on a
`BilinearFeaturePredictor`, `FeaturePredictor.feature_jacobian`
(predictor.py lines 100-103) raises `NotImplementedError` instead of
returning the pair `(jacobian_control(X, U), next_feature(X, U))`: its
first step calls `self.jacobian`, which the class never overrides (it
defines `jacobian_control` instead), so the abstract
`Predictor.jacobian` (lines 29-30) raises. -/
theorem feature_jacobian_raises_not_implemented :
    feature_jacobian P0 ⟨[2], [5, 7]⟩ ⟨[1], [3]⟩ =
      Except.error PyError.notImplementedError := rfl

/-- C9: construction-time control-shape precondition — constructing a
`BilinearFeaturePredictor` with a `u_shape` that is neither 1-D nor a 2-D
column `(Du, 1)` fails at construction time with `AssertionError`; with a
valid `u_shape`, construction succeeds and fixes `Du = u_shape[0]` and
`Dy = prod(x_shape)`. -/
theorem init_shape_precondition (x_shape u_shape : List Nat) :
    (u_shape.length = 1 ∨ (u_shape.length = 2 ∧ u_shape.getD 1 0 = 1) →
      (BilinearFeaturePredictor.init x_shape u_shape).map uDim =
          Except.ok (u_shape.headD 0) ∧
        (BilinearFeaturePredictor.init x_shape u_shape).map yDim =
          Except.ok x_shape.prod) ∧
    (¬(u_shape.length = 1 ∨ (u_shape.length = 2 ∧ u_shape.getD 1 0 = 1)) →
      BilinearFeaturePredictor.init x_shape u_shape =
        Except.error PyError.assertionError) := by
  constructor
  · intro h
    unfold BilinearFeaturePredictor.init
    rw [if_pos h]
    exact ⟨rfl, rfl⟩
  · intro h
    unfold BilinearFeaturePredictor.init
    rw [if_neg h]

/-- Witness for C9: constructing with `x_shape = (2, 2)` and the valid
1-D control shape `(3,)` succeeds and fixes `Du = 3`. -/
theorem init_shape_precondition_witness :
    (BilinearFeaturePredictor.init [2, 2] [3]).map uDim = Except.ok 3 :=
  ((init_shape_precondition [2, 2] [3]).1 (Or.inl rfl)).1

/-- C10: batch/single-sample equivalence of `predict` — for every model
parameter state and every batch (`X` of shape `(N,)+x_shape` with a
well-formed data buffer, `U` of shape `(N, Du)`), row `i` of the batched
prediction equals the prediction of the single sample `(X[i], U[i])`. -/
theorem predict_batch_single (P : BilinearFeaturePredictor) (N i : Nat)
    (X U : Arr) (hx : X.shape = N :: P.x_shape) (hxs : P.x_shape ≠ [])
    (hu : U.shape = [N, uDim P]) (hi : i < N)
    (hwx : X.data.length = N * yDim P) :
    (predict P X U).map (fun r => rowSlice r.data i (yDim P)) =
      (predict P ⟨P.x_shape, rowSlice X.data i (yDim P)⟩
        ⟨[uDim P], rowSlice U.data i (uDim P)⟩).map Arr.data := by
  have hN : N ≠ 0 := by omega
  have hofN : (((N : Nat) : Int)) ≠ -1 := by omega
  -- the batched side
  have hfl : flatten P.x_shape X = Except.ok ⟨[N, yDim P], X.data⟩ :=
    flatten_batched _ _ N hN hx
  have hL : predict P X U =
      Except.ok ⟨[N, yDim P], evalBatched P N X.data U.data⟩ := by
    rw [predict_eq P X U _ hfl]
    apply eval_of_batch_pos P _ _ N hN
    show batch_size _ [[N, yDim P], U.shape] = _
    rw [hu]
    simp [batch_size, batchSizeGo, hofN]
  have hrow : rowSlice (evalBatched P N X.data U.data) i (yDim P) =
      evalSingle P (rowSlice X.data i (yDim P)) (rowSlice U.data i (uDim P)) := by
    unfold evalBatched
    exact rowSlice_flatMap_range _ _ N i hi (fun j => evalSingle_length P _ _)
  -- the single-sample side
  have hslen : (rowSlice X.data i (yDim P)).length = yDim P := by
    have h5 : i + 1 ≤ N := hi
    have h4 : (i + 1) * yDim P ≤ N * yDim P := Nat.mul_le_mul_right (yDim P) h5
    have h3 : yDim P + i * yDim P ≤ N * yDim P := by
      calc yDim P + i * yDim P = (i + 1) * yDim P := by ring
        _ ≤ N * yDim P := h4
    have h2 : yDim P ≤ N * yDim P - i * yDim P := Nat.le_sub_of_add_le h3
    simp only [rowSlice, List.length_take, List.length_drop, hwx]
    exact Nat.min_eq_left h2
  have hXi : flatten P.x_shape (⟨P.x_shape, rowSlice X.data i (yDim P)⟩ : Arr) =
      Except.ok ⟨[yDim P], rowSlice X.data i (yDim P)⟩ := by
    have h := flatten_not_batched P.x_shape
      ⟨P.x_shape, rowSlice X.data i (yDim P)⟩ (drop_one_ne_self hxs)
    rw [h, hslen]
  have hR : predict P ⟨P.x_shape, rowSlice X.data i (yDim P)⟩
      ⟨[uDim P], rowSlice U.data i (uDim P)⟩ =
      Except.ok ⟨[yDim P],
        evalSingle P (rowSlice X.data i (yDim P)) (rowSlice U.data i (uDim P))⟩ := by
    rw [predict_eq P _ _ _ hXi]
    apply eval_of_batch_zero
    simp [batch_size, batchSizeGo]
  -- assemble
  rw [hL, hR]
  simp [Except.map, hrow]

/-- Witness for C10: a concrete batch of two samples over `P0`; row `1` of
the batched prediction equals the prediction on sample `1` alone. -/
theorem predict_batch_single_witness :
    (predict P0 ⟨[2, 2], [1, 2, 3, 4]⟩ ⟨[2, 1], [5, 6]⟩).map
        (fun r => rowSlice r.data 1 (yDim P0)) =
      (predict P0 ⟨P0.x_shape, rowSlice [1, 2, 3, 4] 1 (yDim P0)⟩
        ⟨[uDim P0], rowSlice [5, 6] 1 (uDim P0)⟩).map Arr.data :=
  predict_batch_single P0 2 1 ⟨[2, 2], [1, 2, 3, 4]⟩ ⟨[2, 1], [5, 6]⟩
    rfl (by decide) rfl (by decide) rfl

end VD
